import Mathlib

/-!
# CEP lookup race (`main.go`)

A shallow embedding of the single source file of the repository: the two
provider clients (`ViaCEPRequest`, `BrasilAPIRequest`), the shared request
routine (`RequestCEPAPI`), the presenter (`PrintCEPAPIResp`) and the race
coordinator in `main`.

Modelling conventions.

* A Go `string` is a Lean `String`; a Go `error` is the text returned by its
  `Error()` method (`GoError`); a Go pointer `*CEPAPIResp` is an
  `Option CEPAPIResp`, `none` being `nil`.
* A Go pair `(*CEPAPIResp, error)` is the pair `GoResult`.
* The network is an input: `HttpGet` gives, for every URL, what `http.Get`
  returns for it.
* A response body is represented by what `json.NewDecoder(body).Decode`
  reads from it: either a failure of the reader or scanner (with the text of
  the error), or the first JSON value of the stream.
* Standard output is the `String` of everything written to it.
* The `select` of `main` is a function of the case that becomes ready first;
  the order in which the cases become ready is an input (`Schedule`).
-/

namespace CEPRace

/-! ## Data model -/

/-- Provider A's raw response, `type ViaCEPResp struct` (main.go:12-26). -/
structure ViaCEPResp where
  CEP : String
  Logradouro : String
  Complemento : String
  Unidade : String
  Bairro : String
  Localidade : String
  UF : String
  Estado : String
  Regiao : String
  IBGE : String
  GIA : String
  DDD : String
  SIAFI : String
  deriving DecidableEq, Repr

/-- Provider B's raw response, `type BrasilAPIResp struct` (main.go:28-35). -/
structure BrasilAPIResp where
  CEP : String
  State : String
  City : String
  Neighborhood : String
  Street : String
  Service : String
  deriving DecidableEq, Repr

/-- The normalized address, `type CEPAPIResp struct` (main.go:37-44). -/
structure CEPAPIResp where
  CEP : String
  State : String
  City : String
  Neighborhood : String
  Street : String
  APIService : String
  deriving DecidableEq, Repr

/-- A Go `error`, represented by the text of its `Error()` method. -/
abbrev GoError := String

/-- The Go pair `(*CEPAPIResp, error)`: `none` is `nil` in both components. -/
abbrev GoResult := Option CEPAPIResp × Option GoError

/-! ## JSON values and `encoding/json` decoding into the two raw structs -/

/-- A JSON value as read by the decoder. A number keeps its literal. -/
inductive JVal where
  | null : JVal
  | bool (b : Bool) : JVal
  | num (literal : String) : JVal
  | str (s : String) : JVal
  | arr (items : List JVal) : JVal
  | obj (members : List (String × JVal)) : JVal

/-- What `json.NewDecoder(body).Decode` reads from a response body: a failure
of the underlying reader or of the JSON scanner (empty body, truncated or
malformed text), with the text of that error, or the first JSON value of the
stream. -/
inductive Body where
  | invalid (err : GoError) : Body
  | json (v : JVal) : Body

/-- The word `encoding/json` uses for the kind of a JSON value in an
`UnmarshalTypeError`. -/
def JVal.kind : JVal → String
  | .null => "null"
  | .bool _ => "bool"
  | .num _ => "number"
  | .str _ => "string"
  | .arr _ => "array"
  | .obj _ => "object"

/-- Case folding of one rune as done by `encoding/json` when it matches an
object key against a field name: ASCII lower-case letters go to upper case;
the Kelvin sign U+212A and the long s U+017F, the only non-ASCII runes in
the fold orbit of an ASCII letter, go to `K` and `S`. Every other rune is
left alone here, which agrees with the library whenever the result is
compared with the folded form of an ASCII name, as all the tags below are. -/
def foldRune (c : Char) : Char :=
  if 'a'.toNat ≤ c.toNat ∧ c.toNat ≤ 'z'.toNat then Char.ofNat (c.toNat - 32)
  else if c.toNat = 0x212A then 'K'
  else if c.toNat = 0x017F then 'S'
  else c

/-- The folded form of a key or field name (`foldName` of `encoding/json`). -/
def foldName (s : String) : String := String.mk (s.data.map foldRune)

/-- The fields of `ViaCEPResp`. -/
inductive ViaCEPField where
  | CEP | Logradouro | Complemento | Unidade | Bairro | Localidade | UF
  | Estado | Regiao | IBGE | GIA | DDD | SIAFI
  deriving DecidableEq, Repr

/-- The JSON name of each field of `ViaCEPResp`, from its struct tag. -/
def ViaCEPField.tag : ViaCEPField → String
  | .CEP => "cep"
  | .Logradouro => "logradouro"
  | .Complemento => "complemento"
  | .Unidade => "unidade"
  | .Bairro => "bairro"
  | .Localidade => "localidade"
  | .UF => "uf"
  | .Estado => "estado"
  | .Regiao => "regiao"
  | .IBGE => "ibge"
  | .GIA => "gia"
  | .DDD => "ddd"
  | .SIAFI => "siafi"

/-- The fields of `ViaCEPResp` in declaration order. -/
def ViaCEPField.all : List ViaCEPField :=
  [.CEP, .Logradouro, .Complemento, .Unidade, .Bairro, .Localidade, .UF,
   .Estado, .Regiao, .IBGE, .GIA, .DDD, .SIAFI]

/-- The field of `ViaCEPResp` an object key addresses: the field whose tag is
the key, else the first field whose tag equals the key up to case folding. -/
def ViaCEPField.ofKey (key : String) : Option ViaCEPField :=
  match ViaCEPField.all.find? (fun f => f.tag == key) with
  | some f => some f
  | none => ViaCEPField.all.find? (fun f => foldName f.tag == foldName key)

/-- Assignment to one field of a `ViaCEPResp`. -/
def ViaCEPResp.set (r : ViaCEPResp) : ViaCEPField → String → ViaCEPResp
  | .CEP, v => { r with CEP := v }
  | .Logradouro, v => { r with Logradouro := v }
  | .Complemento, v => { r with Complemento := v }
  | .Unidade, v => { r with Unidade := v }
  | .Bairro, v => { r with Bairro := v }
  | .Localidade, v => { r with Localidade := v }
  | .UF, v => { r with UF := v }
  | .Estado, v => { r with Estado := v }
  | .Regiao, v => { r with Regiao := v }
  | .IBGE, v => { r with IBGE := v }
  | .GIA, v => { r with GIA := v }
  | .DDD, v => { r with DDD := v }
  | .SIAFI, v => { r with SIAFI := v }

/-- Reading one field of a `ViaCEPResp`. -/
def ViaCEPResp.get (r : ViaCEPResp) : ViaCEPField → String
  | .CEP => r.CEP
  | .Logradouro => r.Logradouro
  | .Complemento => r.Complemento
  | .Unidade => r.Unidade
  | .Bairro => r.Bairro
  | .Localidade => r.Localidade
  | .UF => r.UF
  | .Estado => r.Estado
  | .Regiao => r.Regiao
  | .IBGE => r.IBGE
  | .GIA => r.GIA
  | .DDD => r.DDD
  | .SIAFI => r.SIAFI

/-- The zero value of `ViaCEPResp` (`var result ViaCEPResp`, main.go:65). -/
def ViaCEPResp.zero : ViaCEPResp :=
  { CEP := "", Logradouro := "", Complemento := "", Unidade := "", Bairro := "",
    Localidade := "", UF := "", Estado := "", Regiao := "", IBGE := "", GIA := "",
    DDD := "", SIAFI := "" }

/-- The state of an unmarshalling in progress: the struct filled so far and
the first type error met, if any (`saveError` keeps the first). -/
abbrev Unmarshal (α : Type) := α × Option GoError

/-- Keep the first error. -/
def saveError (saved : Option GoError) (e : GoError) : Option GoError :=
  match saved with
  | some e0 => some e0
  | none => some e

/-- One object member stored into a `ViaCEPResp`: an unknown key is skipped,
a string is assigned, `null` leaves the field as it is, and any other value
is a type error (every field is a Go `string`). -/
def ViaCEPResp.storeMember (st : Unmarshal ViaCEPResp) (m : String × JVal) :
    Unmarshal ViaCEPResp :=
  match ViaCEPField.ofKey m.1 with
  | none => st
  | some f =>
    match m.2 with
    | .str s => (st.1.set f s, st.2)
    | .null => st
    | v => (st.1, saveError st.2
        ("json: cannot unmarshal " ++ v.kind ++ " into Go struct field ViaCEPResp."
          ++ f.tag ++ " of type string"))

/-- Decoding of a JSON value into a `ViaCEPResp` that holds its zero value
(`Decode(&result)`, main.go:66): `null` is a no-op, an object is stored
member by member in the order of the text (a later member overwrites an
earlier one), anything else is a type error. -/
def ViaCEPResp.unmarshal : JVal → Unmarshal ViaCEPResp
  | .null => (ViaCEPResp.zero, none)
  | .obj members => members.foldl ViaCEPResp.storeMember (ViaCEPResp.zero, none)
  | v => (ViaCEPResp.zero,
      some ("json: cannot unmarshal " ++ v.kind ++ " into Go value of type main.ViaCEPResp"))

/-- The fields of `BrasilAPIResp`. -/
inductive BrasilAPIField where
  | CEP | State | City | Neighborhood | Street | Service
  deriving DecidableEq, Repr

/-- The JSON name of each field of `BrasilAPIResp`, from its struct tag. -/
def BrasilAPIField.tag : BrasilAPIField → String
  | .CEP => "cep"
  | .State => "state"
  | .City => "city"
  | .Neighborhood => "neighborhood"
  | .Street => "street"
  | .Service => "service"

/-- The fields of `BrasilAPIResp` in declaration order. -/
def BrasilAPIField.all : List BrasilAPIField :=
  [.CEP, .State, .City, .Neighborhood, .Street, .Service]

/-- The field of `BrasilAPIResp` an object key addresses. -/
def BrasilAPIField.ofKey (key : String) : Option BrasilAPIField :=
  match BrasilAPIField.all.find? (fun f => f.tag == key) with
  | some f => some f
  | none => BrasilAPIField.all.find? (fun f => foldName f.tag == foldName key)

/-- Assignment to one field of a `BrasilAPIResp`. -/
def BrasilAPIResp.set (r : BrasilAPIResp) : BrasilAPIField → String → BrasilAPIResp
  | .CEP, v => { r with CEP := v }
  | .State, v => { r with State := v }
  | .City, v => { r with City := v }
  | .Neighborhood, v => { r with Neighborhood := v }
  | .Street, v => { r with Street := v }
  | .Service, v => { r with Service := v }

/-- The zero value of `BrasilAPIResp` (`var result BrasilAPIResp`, main.go:91). -/
def BrasilAPIResp.zero : BrasilAPIResp :=
  { CEP := "", State := "", City := "", Neighborhood := "", Street := "", Service := "" }

/-- One object member stored into a `BrasilAPIResp`. -/
def BrasilAPIResp.storeMember (st : Unmarshal BrasilAPIResp) (m : String × JVal) :
    Unmarshal BrasilAPIResp :=
  match BrasilAPIField.ofKey m.1 with
  | none => st
  | some f =>
    match m.2 with
    | .str s => (st.1.set f s, st.2)
    | .null => st
    | v => (st.1, saveError st.2
        ("json: cannot unmarshal " ++ v.kind ++ " into Go struct field BrasilAPIResp."
          ++ f.tag ++ " of type string"))

/-- Decoding of a JSON value into a zero `BrasilAPIResp` (main.go:92). -/
def BrasilAPIResp.unmarshal : JVal → Unmarshal BrasilAPIResp
  | .null => (BrasilAPIResp.zero, none)
  | .obj members => members.foldl BrasilAPIResp.storeMember (BrasilAPIResp.zero, none)
  | v => (BrasilAPIResp.zero,
      some ("json: cannot unmarshal " ++ v.kind ++ " into Go value of type main.BrasilAPIResp"))

/-- The method `Decode` of a `json.Decoder` on a body, for a target whose
unmarshalling is `um`: the error of the read, or the first type error of the
unmarshalling, or success. -/
def decode {α : Type} (um : JVal → Unmarshal α) (zero : α) : Body → α × Option GoError
  | .invalid err => (zero, some err)
  | .json v => um v

/-! ## HTTP and the shared request routine -/

/-- The part of an `http.Response` the program reads. The body has type `β`:
`Body` for the two providers, anything for an arbitrary decoder. -/
structure Response (β : Type) where
  StatusCode : Int
  Status : String
  Body : β

/-- What `http.Get` returns: a transport failure (`err != nil`) or a
response. -/
inductive GetResult (β : Type) where
  | failure (err : GoError) : GetResult β
  | response (resp : Response β) : GetResult β

/-- The network, as seen by the program: the result of `http.Get` for each
URL. -/
abbrev HttpGet (β : Type) := String → GetResult β

/-- The type `CEPDecoderFunc` (main.go:46). A decoder is Go code and may have
effects of its own, so it is a state transformer over an arbitrary state
`σ`; a call of the decoder is the only way that state can change. -/
abbrev CEPDecoderFunc (β σ : Type) := β → σ → GoResult × σ

/-- The function `RequestCEPAPI` (main.go:48-59). The deferred
`resp.Body.Close()` releases the connection and writes nothing the program
observes; it has no counterpart here. -/
def RequestCEPAPI {β σ : Type} (httpGet : HttpGet β) (url : String)
    (decoder : CEPDecoderFunc β σ) (s : σ) : GoResult × σ :=
  match httpGet url with
  | .failure err => ((none, some ("erro ao fazer requisição: " ++ err)), s)
  | .response resp =>
    if resp.StatusCode ≠ 200 then
      ((none, some ("requisição falhou com status: " ++ resp.Status)), s)
    else
      decoder resp.Body s

/-! ## The two provider clients -/

/-- What a provider goroutine does at its end: one send, on its own result
channel `out` or on the shared error channel `errCh`. -/
inductive Send where
  | out (resp : Option CEPAPIResp) : Send
  | errCh (err : GoError) : Send
  deriving DecidableEq, Repr

/-- The decoder closure of `ViaCEPRequest` (main.go:63-78). -/
def ViaCEPRequest.decoder : CEPDecoderFunc Body Unit := fun body s =>
  match decode ViaCEPResp.unmarshal ViaCEPResp.zero body with
  | (_, some err) => ((none, some ("erro ao decodificar resposta: " ++ err)), s)
  | (result, none) =>
    ((some { CEP := result.CEP
             State := result.Estado
             City := result.Localidade
             Neighborhood := result.Bairro
             Street := result.Logradouro
             APIService := "viacep.com.br" }, none), s)

/-- The function `ViaCEPRequest` (main.go:61-85). -/
def ViaCEPRequest (httpGet : HttpGet Body) (cep : String) : Send :=
  let url := "https://viacep.com.br/ws/" ++ cep ++ "/json/"
  match (RequestCEPAPI httpGet url ViaCEPRequest.decoder ()).1 with
  | (_, some err) => .errCh err
  | (resp, none) => .out resp

/-- The decoder closure of `BrasilAPIRequest` (main.go:89-104). -/
def BrasilAPIRequest.decoder : CEPDecoderFunc Body Unit := fun body s =>
  match decode BrasilAPIResp.unmarshal BrasilAPIResp.zero body with
  | (_, some err) => ((none, some ("erro ao decodificar resposta: " ++ err)), s)
  | (result, none) =>
    ((some { CEP := result.CEP
             State := result.State
             City := result.City
             Neighborhood := result.Neighborhood
             Street := result.Street
             APIService := "brasilapi.com.br" }, none), s)

/-- The function `BrasilAPIRequest` (main.go:87-111). -/
def BrasilAPIRequest (httpGet : HttpGet Body) (cep : String) : Send :=
  let url := "https://brasilapi.com.br/api/cep/v1/" ++ cep
  match (RequestCEPAPI httpGet url BrasilAPIRequest.decoder ()).1 with
  | (_, some err) => .errCh err
  | (resp, none) => .out resp

/-! ## Presenter -/

/-- The function `PrintCEPAPIResp` (main.go:113-120): the text written to
standard output, or `none` when `c` is `nil` (the dereference `c.CEP`
panics before anything is written). -/
def PrintCEPAPIResp : Option CEPAPIResp → Option String
  | none => none
  | some c => some (
      "CEP ..........: " ++ c.CEP ++ " \n" ++
      "State ........: " ++ c.State ++ " \n" ++
      "City .........: " ++ c.City ++ " \n" ++
      "Neighborhood .: " ++ c.Neighborhood ++ " \n" ++
      "Street .......: " ++ c.Street ++ " \n" ++
      "API Service ..: " ++ c.APIService ++ " \n")

/-! ## Race coordinator -/

/-- The three things `main` waits for: the two provider goroutines and the
timer of `time.After(time.Second)`. -/
inductive Source where
  | viaCEP | brasilAPI | deadline
  deriving DecidableEq, Repr

/-- The order in which the sources become ready: the one that is ready
first (the case `select` proceeds with; among cases ready at the same
instant, the one the runtime picks), and those that become ready later. -/
structure Schedule where
  first : Source
  later : List Source

/-- The case of the `select` of `main` that proceeds, with the value
received. -/
inductive Event where
  | viaCEPChannel (msg : Option CEPAPIResp) : Event
  | brasilAPIChannel (msg : Option CEPAPIResp) : Event
  | apiErrChannel (msg : GoError) : Event
  | timeAfter : Event
  deriving DecidableEq, Repr

/-- The event `select` receives (main.go:129-136): the send of the source
that is ready first, on the channel `main` handed to that goroutine. Both
goroutines share `apiErrChannel`. -/
def Schedule.selected (sched : Schedule) (viaCEP brasilAPI : Send) : Event :=
  match sched.first with
  | .viaCEP =>
    match viaCEP with
    | .out resp => .viaCEPChannel resp
    | .errCh err => .apiErrChannel err
  | .brasilAPI =>
    match brasilAPI with
    | .out resp => .brasilAPIChannel resp
    | .errCh err => .apiErrChannel err
  | .deadline => .timeAfter

/-- An execution of the program, as far as it can be observed: everything
written to standard output, the exit status, and the provider goroutines
that were started. -/
structure Run where
  stdout : String
  exitCode : Nat
  started : List Source
  deriving DecidableEq, Repr

/-- The body of the `select` of `main` (main.go:136-147): standard output and
exit status for the case that proceeds. A `nil` message makes
`PrintCEPAPIResp` panic after the banner is written (exit status 2). -/
def selectCase : Event → String × Nat
  | .viaCEPChannel msg =>
    match PrintCEPAPIResp msg with
    | some report => ("*** Via CEP ***\n" ++ report, 0)
    | none => ("*** Via CEP ***\n", 2)
  | .brasilAPIChannel msg =>
    match PrintCEPAPIResp msg with
    | some report => ("*** Brasil API ***\n" ++ report, 0)
    | none => ("*** Brasil API ***\n", 2)
  | .apiErrChannel msg => ("Erro: " ++ msg, 0)
  | .timeAfter => ("timeout", 0)

/-- The function `main` (main.go:122-148), for the argument vector `osArgs`
(`os.Args`, program name included), the network `httpGet` and the order
`sched` in which the cases of the `select` become ready. -/
def main (osArgs : List String) (httpGet : HttpGet Body) (sched : Schedule) : Run :=
  if osArgs.length < 2 then
    { stdout := "Use: go run main.go <CEP>\n", exitCode := 1, started := [] }
  else
    let cep := osArgs.getD 1 ""
    let ev := sched.selected (ViaCEPRequest httpGet cep) (BrasilAPIRequest httpGet cep)
    { stdout := (selectCase ev).1, exitCode := (selectCase ev).2,
      started := [.viaCEP, .brasilAPI] }

/-! ## Lines of a text -/

/-- The lines of a text: the segments that a line feed ends, and the
unterminated rest if it is not empty. -/
def linesOf : List Char → List (List Char)
  | [] => []
  | c :: cs =>
    if c = '\n' then [] :: linesOf cs
    else
      match linesOf cs with
      | [] => [[c]]
      | l :: ls => (c :: l) :: ls

/-- The lines of a `String`. -/
def lines (s : String) : List String := (linesOf s.data).map String.mk

/-- The number of line feeds in a `String`. -/
def lineFeeds (s : String) : Nat := s.data.count '\n'

/-- A text without a line feed. -/
def oneLine (s : String) : Prop := '\n' ∉ s.data

/-- The texts that the libraries put into a result of `http.Get` are each on
one line: the cause of a transport failure, the status line of a response,
and the error of reading or scanning the body. -/
def GetResult.textsOnOneLine : GetResult Body → Prop
  | .failure err => oneLine err
  | .response resp =>
    oneLine resp.Status ∧
    match resp.Body with
    | .invalid err => oneLine err
    | .json _ => True

/-! ## Well-formed provider-A bodies -/

/-- The JSON object with the given members, all with string values. -/
def stringObject (members : List (String × String)) : JVal :=
  .obj (members.map fun m => (m.1, JVal.str m.2))

/-- The value of the member named `name` of such an object: the value of the
first member whose key is `name` up to case folding, the empty string when
there is none. -/
def memberValue (members : List (String × String)) (name : String) : String :=
  match members.find? (fun m => foldName m.1 == foldName name) with
  | some m => m.2
  | none => ""

/-! ## Concrete inputs used below -/

/-- The members of the provider-A body of the round-trip property of the
specification: `cep`, `logradouro`, `bairro`, `localidade` and `uf`. -/
def sampleViaCEPMembers : List (String × String) :=
  [("cep", "01001000"), ("logradouro", "Praça da Sé"), ("bairro", "Sé"),
   ("localidade", "São Paulo"), ("uf", "SP")]

/-- The provider-A body of the round-trip property of the specification. -/
def sampleViaCEPBody : JVal := stringObject sampleViaCEPMembers

/-- The address the code produces from `sampleViaCEPBody`. -/
def sampleViaCEPAddress : CEPAPIResp :=
  { CEP := "01001000", State := "", City := "São Paulo", Neighborhood := "Sé",
    Street := "Praça da Sé", APIService := "viacep.com.br" }

/-- A provider-B body for the same postal code. -/
def sampleBrasilAPIBody : JVal :=
  .obj [("cep", .str "01001000"), ("state", .str "SP"), ("city", .str "São Paulo"),
        ("neighborhood", .str "Sé"), ("street", .str "Praça da Sé"),
        ("service", .str "open-cep")]

/-- The address the code produces from `sampleBrasilAPIBody`. -/
def sampleBrasilAPIAddress : CEPAPIResp :=
  { CEP := "01001000", State := "SP", City := "São Paulo", Neighborhood := "Sé",
    Street := "Praça da Sé", APIService := "brasilapi.com.br" }

/-- An address whose street holds a line feed (the JSON string
`"Praça da Sé\nlado ímpar"` decodes to such a value). -/
def addressWithLineFeed : CEPAPIResp :=
  { CEP := "01001000", State := "SP", City := "São Paulo", Neighborhood := "Sé",
    Street := "Praça da Sé\nlado ímpar", APIService := "brasilapi.com.br" }

/-- A network on which provider A answers `500 Internal Server Error` and
provider B answers `200 OK` with `sampleBrasilAPIBody`. -/
def networkAFailsBSucceeds : HttpGet Body := fun url =>
  if url = "https://viacep.com.br/ws/01001000/json/" then
    .response { StatusCode := 500, Status := "500 Internal Server Error",
                Body := .invalid "EOF" }
  else
    .response { StatusCode := 200, Status := "200 OK", Body := .json sampleBrasilAPIBody }

/-- A network on which both providers answer `200 OK` with their sample
body. -/
def networkBothSucceed : HttpGet Body := fun url =>
  if url = "https://viacep.com.br/ws/01001000/json/" then
    .response { StatusCode := 200, Status := "200 OK", Body := .json sampleViaCEPBody }
  else
    .response { StatusCode := 200, Status := "200 OK", Body := .json sampleBrasilAPIBody }

/-- A provider-B body whose street holds a line feed (written `\n` inside
the JSON string). -/
def sampleBrasilAPIBodyTwoLineStreet : JVal :=
  .obj [("cep", .str "01001000"), ("state", .str "SP"), ("city", .str "São Paulo"),
        ("neighborhood", .str "Sé"), ("street", .str "Praça da Sé\nlado ímpar"),
        ("service", .str "open-cep")]

/-- A network on which provider B answers `200 OK` with
`sampleBrasilAPIBodyTwoLineStreet` (and provider A with its sample body). -/
def networkStreetWithLineFeed : HttpGet Body := fun url =>
  if url = "https://viacep.com.br/ws/01001000/json/" then
    .response { StatusCode := 200, Status := "200 OK", Body := .json sampleViaCEPBody }
  else
    .response { StatusCode := 200, Status := "200 OK",
                Body := .json sampleBrasilAPIBodyTwoLineStreet }

/-- A network on which every request fails in the transport with a cause
whose text spans two lines (two causes joined by a line feed). -/
def networkJoinedFailure : HttpGet Body := fun _ =>
  .failure "dial tcp: connection refused\ndial tcp: network is unreachable"

/-- A network without connectivity: every request fails in the transport. -/
def networkDown : HttpGet Body := fun _ =>
  .failure "Get: dial tcp: lookup: no such host"

/-- A response `404 Not Found`. -/
def response404 : Response Body :=
  { StatusCode := 404, Status := "404 Not Found", Body := .json sampleViaCEPBody }

/-- A response `201 Created` that carries `sampleViaCEPBody`. -/
def response201 : Response Body :=
  { StatusCode := 201, Status := "201 Created", Body := .json sampleViaCEPBody }

/-- A response `200 OK` that carries `sampleViaCEPBody`. -/
def response200 : Response Body :=
  { StatusCode := 200, Status := "200 OK", Body := .json sampleViaCEPBody }

/-- A decoder with an effect: it decodes as provider A does and counts its
calls in the state. -/
def countingDecoder : CEPDecoderFunc Body Nat := fun body calls =>
  ((ViaCEPRequest.decoder body ()).1, calls + 1)

/-! ## Auxiliary facts: texts and lines -/

theorem linesOf_line (l rest : List Char) (hl : '\n' ∉ l) :
    linesOf (l ++ '\n' :: rest) = l :: linesOf rest := by
  induction l with
  | nil => simp [linesOf]
  | cons c cs ih =>
    have hc : c ≠ '\n' := fun h => hl (by simp [h])
    have hcs : '\n' ∉ cs := fun h => hl (by simp [h])
    simp [linesOf, hc, ih hcs]

theorem linesOf_unterminated (l : List Char) (hne : l ≠ []) (hl : '\n' ∉ l) :
    linesOf l = [l] := by
  induction l with
  | nil => exact absurd rfl hne
  | cons c cs ih =>
    have hc : c ≠ '\n' := fun h => hl (by simp [h])
    have hcs : '\n' ∉ cs := fun h => hl (by simp [h])
    cases cs with
    | nil => simp [linesOf, hc]
    | cons d ds =>
      have h := ih (by simp) hcs
      simp [linesOf, hc] at h ⊢
      simp [linesOf, h]

theorem linesOf_no_feed (l x : List Char) (hx : x ∈ linesOf l) : '\n' ∉ x := by
  induction l generalizing x with
  | nil => simp [linesOf] at hx
  | cons c cs ih =>
    by_cases hc : c = '\n'
    · simp only [linesOf, hc, if_true, List.mem_cons] at hx
      rcases hx with h | h
      · simp [h]
      · exact ih x h
    · simp only [linesOf, hc, if_false] at hx
      cases hl : linesOf cs with
      | nil =>
        rw [hl] at hx
        simp at hx
        simp [hx, Ne.symm hc]
      | cons y ys =>
        rw [hl] at hx
        simp only [List.mem_cons] at hx
        rcases hx with h | h
        · have hy : '\n' ∉ y := ih y (by rw [hl]; simp)
          simp [h, hy, Ne.symm hc]
        · exact ih x (by rw [hl]; simp [h])

theorem lines_line (l rest : String) (hl : '\n' ∉ l.data) :
    lines (l ++ "\n" ++ rest) = l :: lines rest := by
  have h : (l ++ "\n" ++ rest).data = l.data ++ '\n' :: rest.data := by
    simp [String.data_append]
  simp [lines, h, linesOf_line _ _ hl]

theorem lineFeeds_append (a b : String) : lineFeeds (a ++ b) = lineFeeds a + lineFeeds b := by
  simp [lineFeeds, String.data_append]

/-! ## Auxiliary facts: what a provider can send -/

theorem ViaCEPRequest_decoder_cases (body : Body) (s : Unit) :
    (∃ err, ViaCEPRequest.decoder body s = ((none, some err), s)) ∨
    (∃ a, ViaCEPRequest.decoder body s = ((some a, none), s) ∧
      a.APIService = "viacep.com.br") := by
  unfold ViaCEPRequest.decoder
  rcases h : decode ViaCEPResp.unmarshal ViaCEPResp.zero body with ⟨result, _ | err⟩
  · exact Or.inr ⟨_, rfl, rfl⟩
  · exact Or.inl ⟨_, rfl⟩

theorem BrasilAPIRequest_decoder_cases (body : Body) (s : Unit) :
    (∃ err, BrasilAPIRequest.decoder body s = ((none, some err), s)) ∨
    (∃ a, BrasilAPIRequest.decoder body s = ((some a, none), s) ∧
      a.APIService = "brasilapi.com.br") := by
  unfold BrasilAPIRequest.decoder
  rcases h : decode BrasilAPIResp.unmarshal BrasilAPIResp.zero body with ⟨result, _ | err⟩
  · exact Or.inr ⟨_, rfl, rfl⟩
  · exact Or.inl ⟨_, rfl⟩

theorem RequestCEPAPI_cases {β σ : Type} (httpGet : HttpGet β) (url : String)
    (decoder : CEPDecoderFunc β σ) (s : σ) :
    (∃ err, RequestCEPAPI httpGet url decoder s = ((none, some err), s)) ∨
    (∃ resp, httpGet url = .response resp ∧ resp.StatusCode = 200 ∧
      RequestCEPAPI httpGet url decoder s = decoder resp.Body s) := by
  unfold RequestCEPAPI
  cases h : httpGet url with
  | failure err => exact Or.inl ⟨_, rfl⟩
  | response resp =>
    by_cases hs : resp.StatusCode = 200
    · exact Or.inr ⟨resp, rfl, hs, by simp [hs]⟩
    · exact Or.inl ⟨"requisição falhou com status: " ++ resp.Status, by simp [hs]⟩

theorem ViaCEPRequest_out (httpGet : HttpGet Body) (cep : String) (msg : Option CEPAPIResp)
    (h : ViaCEPRequest httpGet cep = .out msg) :
    ∃ a, msg = some a ∧ a.APIService = "viacep.com.br" := by
  unfold ViaCEPRequest at h
  rcases RequestCEPAPI_cases httpGet ("https://viacep.com.br/ws/" ++ cep ++ "/json/")
      ViaCEPRequest.decoder () with ⟨err, he⟩ | ⟨resp, _, _, he⟩
  · simp [he] at h
  · rcases ViaCEPRequest_decoder_cases resp.Body () with ⟨err, hd⟩ | ⟨a, hd, ha⟩
    · simp [he, hd] at h
    · simp [he, hd] at h
      exact ⟨a, h.symm, ha⟩

theorem BrasilAPIRequest_out (httpGet : HttpGet Body) (cep : String) (msg : Option CEPAPIResp)
    (h : BrasilAPIRequest httpGet cep = .out msg) :
    ∃ a, msg = some a ∧ a.APIService = "brasilapi.com.br" := by
  unfold BrasilAPIRequest at h
  rcases RequestCEPAPI_cases httpGet ("https://brasilapi.com.br/api/cep/v1/" ++ cep)
      BrasilAPIRequest.decoder () with ⟨err, he⟩ | ⟨resp, _, _, he⟩
  · simp [he] at h
  · rcases BrasilAPIRequest_decoder_cases resp.Body () with ⟨err, hd⟩ | ⟨a, hd, ha⟩
    · simp [he, hd] at h
    · simp [he, hd] at h
      exact ⟨a, h.symm, ha⟩

theorem selected_msg_some (httpGet : HttpGet Body) (cep : String) (sched : Schedule) :
    (∀ msg, sched.selected (ViaCEPRequest httpGet cep) (BrasilAPIRequest httpGet cep)
        = .viaCEPChannel msg →
      sched.first = .viaCEP ∧ ViaCEPRequest httpGet cep = .out msg) ∧
    (∀ msg, sched.selected (ViaCEPRequest httpGet cep) (BrasilAPIRequest httpGet cep)
        = .brasilAPIChannel msg →
      sched.first = .brasilAPI ∧ BrasilAPIRequest httpGet cep = .out msg) := by
  unfold Schedule.selected
  constructor <;> intro msg h
  · cases hf : sched.first <;> simp [hf] at h
    · cases ha : ViaCEPRequest httpGet cep <;> simp [ha] at h
      exact ⟨rfl, by rw [h]⟩
    · cases hb : BrasilAPIRequest httpGet cep <;> simp [hb] at h
  · cases hf : sched.first <;> simp [hf] at h
    · cases ha : ViaCEPRequest httpGet cep <;> simp [ha] at h
    · cases hb : BrasilAPIRequest httpGet cep <;> simp [hb] at h
      exact ⟨rfl, by rw [h]⟩

/-! ## Auxiliary facts: decoding an object into `ViaCEPResp` -/

theorem find?_unique {α : Type} (l : List α) (p : α → Bool) (a : α) (ha : a ∈ l)
    (hp : p a = true) (huniq : ∀ b ∈ l, p b = true → b = a) : l.find? p = some a := by
  induction l with
  | nil => simp at ha
  | cons x xs ih =>
    by_cases hx : p x = true
    · have : x = a := huniq x (by simp) hx
      rw [List.find?_cons_of_pos _ hx, this]
    · have hxa : a ≠ x := fun h => hx (h ▸ hp)
      have ha2 : a ∈ xs := by
        rcases List.mem_cons.mp ha with h | h
        · exact absurd h hxa
        · exact h
      rw [List.find?_cons_of_neg _ hx]
      exact ih ha2 (fun b hb => huniq b (List.mem_cons_of_mem _ hb))

theorem ViaCEPField.mem_all (f : ViaCEPField) : f ∈ ViaCEPField.all := by
  cases f <;> simp [ViaCEPField.all]

theorem ViaCEPField.tag_fold_injective (f g : ViaCEPField)
    (h : foldName f.tag = foldName g.tag) : f = g := by
  revert h
  cases f <;> cases g <;> decide

theorem ViaCEPField.ofKey_iff (key : String) (f : ViaCEPField) :
    ViaCEPField.ofKey key = some f ↔ foldName key = foldName f.tag := by
  unfold ViaCEPField.ofKey
  constructor
  · intro h
    cases h1 : ViaCEPField.all.find? (fun f => f.tag == key) with
    | some g =>
      rw [h1] at h
      have hg := List.find?_some h1
      simp at h hg
      rw [← h, hg]
    | none =>
      rw [h1] at h
      have hf := List.find?_some h
      simp at hf
      exact hf.symm
  · intro h
    cases h1 : ViaCEPField.all.find? (fun f => f.tag == key) with
    | some g =>
      have hg := List.find?_some h1
      simp at hg
      have : g = f := ViaCEPField.tag_fold_injective g f (by rw [hg, h])
      simp [this]
    | none =>
      simp only
      apply find?_unique _ _ f (ViaCEPField.mem_all f)
      · simp [h]
      · intro b _ hb
        simp at hb
        exact ViaCEPField.tag_fold_injective b f (by rw [hb, h])

theorem ViaCEPResp.get_set (r : ViaCEPResp) (g f : ViaCEPField) (v : String) :
    (r.set g v).get f = if g = f then v else r.get f := by
  cases g <;> cases f <;> rfl

theorem ViaCEPResp.foldl_storeMember (ms : List (String × String)) (r : ViaCEPResp)
    (hkeys : (ms.map (fun m => foldName m.1)).Nodup) :
    ((ms.map fun m => (m.1, JVal.str m.2)).foldl ViaCEPResp.storeMember (r, none)).2 = none ∧
    ∀ f, ((ms.map fun m => (m.1, JVal.str m.2)).foldl
        ViaCEPResp.storeMember (r, none)).1.get f =
      match ms.find? (fun m => foldName m.1 == foldName f.tag) with
      | some m => m.2
      | none => r.get f := by
  induction ms generalizing r with
  | nil => simp
  | cons m rest ih =>
    have hrest : (rest.map (fun m => foldName m.1)).Nodup := (List.nodup_cons.mp hkeys).2
    have hnot : foldName m.1 ∉ rest.map (fun m => foldName m.1) := (List.nodup_cons.mp hkeys).1
    simp only [List.map_cons, List.foldl_cons]
    cases hk : ViaCEPField.ofKey m.1 with
    | none =>
      have hstep : ViaCEPResp.storeMember (r, none) (m.1, JVal.str m.2) = (r, none) := by
        simp [ViaCEPResp.storeMember, hk]
      rw [hstep]
      refine ⟨(ih r hrest).1, fun f => ?_⟩
      have hne : ¬ foldName m.1 = foldName f.tag := fun h => by
        have := (ViaCEPField.ofKey_iff m.1 f).mpr h
        rw [hk] at this
        exact Option.noConfusion this
      rw [(ih r hrest).2 f, List.find?_cons_of_neg _ (by simpa using hne)]
    | some g =>
      have hstep : ViaCEPResp.storeMember (r, none) (m.1, JVal.str m.2)
          = (r.set g m.2, none) := by
        simp [ViaCEPResp.storeMember, hk]
      rw [hstep]
      refine ⟨(ih _ hrest).1, fun f => ?_⟩
      rw [(ih _ hrest).2 f, ViaCEPResp.get_set]
      have hg : foldName m.1 = foldName g.tag := (ViaCEPField.ofKey_iff m.1 g).mp hk
      by_cases hgf : g = f
      · subst hgf
        have hnone : rest.find? (fun m => foldName m.1 == foldName g.tag) = none := by
          rw [List.find?_eq_none]
          intro x hx hxe
          simp at hxe
          exact hnot (List.mem_map.mpr ⟨x, hx, by rw [hxe, hg]⟩)
        rw [List.find?_cons_of_pos _ (by simpa using hg), hnone]
        simp
      · have hne : ¬ foldName m.1 = foldName f.tag := fun h =>
          hgf (ViaCEPField.tag_fold_injective g f (by rw [← hg, h]))
        rw [List.find?_cons_of_neg _ (by simpa using hne)]
        simp [hgf]

theorem ViaCEPRequest.decoder_of_unmarshal (v : JVal) (result : ViaCEPResp)
    (h : ViaCEPResp.unmarshal v = (result, none)) :
    ViaCEPRequest.decoder (.json v) () =
      ((some { CEP := result.CEP
               State := result.Estado
               City := result.Localidade
               Neighborhood := result.Bairro
               Street := result.Logradouro
               APIService := "viacep.com.br" }, none), ()) := by
  simp [ViaCEPRequest.decoder, decode, h]

theorem memberValue_of_mem (ms : List (String × String))
    (hkeys : (ms.map (fun m => foldName m.1)).Nodup) (name v : String)
    (hmem : (name, v) ∈ ms) : memberValue ms name = v := by
  unfold memberValue
  have : ms.find? (fun m => foldName m.1 == foldName name) = some (name, v) := by
    apply find?_unique _ _ _ hmem
    · simp
    · intro b hb hbe
      simp at hbe
      exact List.inj_on_of_nodup_map hkeys hb hmem hbe
  simp [this]

/-! ## Auxiliary facts: the errors a provider sends are on one line -/

theorem oneLine_append (a b : String) (ha : oneLine a) (hb : oneLine b) :
    oneLine (a ++ b) := by
  unfold oneLine at *
  simp [String.data_append, ha, hb]

theorem ViaCEPResp_typeError_oneLine (v : JVal) (f : ViaCEPField) :
    oneLine ("json: cannot unmarshal " ++ v.kind ++ " into Go struct field ViaCEPResp."
      ++ f.tag ++ " of type string") := by
  unfold oneLine
  cases v <;> cases f <;> simp only [JVal.kind] <;> decide

theorem BrasilAPIResp_typeError_oneLine (v : JVal) (f : BrasilAPIField) :
    oneLine ("json: cannot unmarshal " ++ v.kind ++ " into Go struct field BrasilAPIResp."
      ++ f.tag ++ " of type string") := by
  unfold oneLine
  cases v <;> cases f <;> simp only [JVal.kind] <;> decide

theorem saveError_oneLine (saved : Option GoError) (e : GoError)
    (hs : ∀ e0, saved = some e0 → oneLine e0) (he : oneLine e) :
    ∀ e1, saveError saved e = some e1 → oneLine e1 := by
  intro e1 h
  cases saved with
  | none =>
    simp [saveError] at h
    exact h ▸ he
  | some e0 =>
    simp [saveError] at h
    exact h ▸ hs e0 rfl

theorem ViaCEPResp_storeMember_oneLine (st : Unmarshal ViaCEPResp) (m : String × JVal)
    (hs : ∀ e, st.2 = some e → oneLine e) :
    ∀ e, (ViaCEPResp.storeMember st m).2 = some e → oneLine e := by
  obtain ⟨key, v⟩ := m
  unfold ViaCEPResp.storeMember
  cases hk : ViaCEPField.ofKey key with
  | none => simpa using hs
  | some f =>
    cases v with
    | null => simpa using hs
    | str s => simpa using hs
    | bool b => exact saveError_oneLine _ _ hs (ViaCEPResp_typeError_oneLine (.bool b) f)
    | num l => exact saveError_oneLine _ _ hs (ViaCEPResp_typeError_oneLine (.num l) f)
    | arr l => exact saveError_oneLine _ _ hs (ViaCEPResp_typeError_oneLine (.arr l) f)
    | obj l => exact saveError_oneLine _ _ hs (ViaCEPResp_typeError_oneLine (.obj l) f)

theorem BrasilAPIResp_storeMember_oneLine (st : Unmarshal BrasilAPIResp) (m : String × JVal)
    (hs : ∀ e, st.2 = some e → oneLine e) :
    ∀ e, (BrasilAPIResp.storeMember st m).2 = some e → oneLine e := by
  obtain ⟨key, v⟩ := m
  unfold BrasilAPIResp.storeMember
  cases hk : BrasilAPIField.ofKey key with
  | none => simpa using hs
  | some f =>
    cases v with
    | null => simpa using hs
    | str s => simpa using hs
    | bool b => exact saveError_oneLine _ _ hs (BrasilAPIResp_typeError_oneLine (.bool b) f)
    | num l => exact saveError_oneLine _ _ hs (BrasilAPIResp_typeError_oneLine (.num l) f)
    | arr l => exact saveError_oneLine _ _ hs (BrasilAPIResp_typeError_oneLine (.arr l) f)
    | obj l => exact saveError_oneLine _ _ hs (BrasilAPIResp_typeError_oneLine (.obj l) f)

theorem ViaCEPResp_foldl_oneLine (ms : List (String × JVal)) (st : Unmarshal ViaCEPResp)
    (hs : ∀ e, st.2 = some e → oneLine e) :
    ∀ e, (ms.foldl ViaCEPResp.storeMember st).2 = some e → oneLine e := by
  induction ms generalizing st with
  | nil => simpa using hs
  | cons m rest ih =>
    simp only [List.foldl_cons]
    exact ih _ (ViaCEPResp_storeMember_oneLine st m hs)

theorem BrasilAPIResp_foldl_oneLine (ms : List (String × JVal)) (st : Unmarshal BrasilAPIResp)
    (hs : ∀ e, st.2 = some e → oneLine e) :
    ∀ e, (ms.foldl BrasilAPIResp.storeMember st).2 = some e → oneLine e := by
  induction ms generalizing st with
  | nil => simpa using hs
  | cons m rest ih =>
    simp only [List.foldl_cons]
    exact ih _ (BrasilAPIResp_storeMember_oneLine st m hs)

theorem ViaCEPResp_unmarshal_oneLine (v : JVal) :
    ∀ e, (ViaCEPResp.unmarshal v).2 = some e → oneLine e := by
  intro e h
  cases v with
  | null => simp [ViaCEPResp.unmarshal] at h
  | obj ms =>
    exact ViaCEPResp_foldl_oneLine ms (ViaCEPResp.zero, none) (by simp) e h
  | bool b => simp [ViaCEPResp.unmarshal] at h; subst h; unfold oneLine; simp only [JVal.kind]; decide
  | num l => simp [ViaCEPResp.unmarshal] at h; subst h; unfold oneLine; simp only [JVal.kind]; decide
  | str t => simp [ViaCEPResp.unmarshal] at h; subst h; unfold oneLine; simp only [JVal.kind]; decide
  | arr l => simp [ViaCEPResp.unmarshal] at h; subst h; unfold oneLine; simp only [JVal.kind]; decide

theorem BrasilAPIResp_unmarshal_oneLine (v : JVal) :
    ∀ e, (BrasilAPIResp.unmarshal v).2 = some e → oneLine e := by
  intro e h
  cases v with
  | null => simp [BrasilAPIResp.unmarshal] at h
  | obj ms =>
    exact BrasilAPIResp_foldl_oneLine ms (BrasilAPIResp.zero, none) (by simp) e h
  | bool b => simp [BrasilAPIResp.unmarshal] at h; subst h; unfold oneLine; simp only [JVal.kind]; decide
  | num l => simp [BrasilAPIResp.unmarshal] at h; subst h; unfold oneLine; simp only [JVal.kind]; decide
  | str t => simp [BrasilAPIResp.unmarshal] at h; subst h; unfold oneLine; simp only [JVal.kind]; decide
  | arr l => simp [BrasilAPIResp.unmarshal] at h; subst h; unfold oneLine; simp only [JVal.kind]; decide

theorem ViaCEPRequest_decoder_oneLine (body : Body) (err : GoError)
    (hbody : match body with
      | .invalid e => oneLine e
      | .json _ => True)
    (h : (ViaCEPRequest.decoder body ()).1.2 = some err) : oneLine err := by
  unfold ViaCEPRequest.decoder at h
  cases body with
  | invalid e =>
    simp [decode] at h
    exact h ▸ oneLine_append _ _ (by unfold oneLine; decide) hbody
  | json v =>
    have hv := ViaCEPResp_unmarshal_oneLine v
    simp only [decode] at h
    rcases hu : ViaCEPResp.unmarshal v with ⟨result, _ | e⟩
    · simp [hu] at h
    · simp [hu] at h
      exact h ▸ oneLine_append _ _ (by unfold oneLine; decide) (hv e (by rw [hu]))

theorem BrasilAPIRequest_decoder_oneLine (body : Body) (err : GoError)
    (hbody : match body with
      | .invalid e => oneLine e
      | .json _ => True)
    (h : (BrasilAPIRequest.decoder body ()).1.2 = some err) : oneLine err := by
  unfold BrasilAPIRequest.decoder at h
  cases body with
  | invalid e =>
    simp [decode] at h
    exact h ▸ oneLine_append _ _ (by unfold oneLine; decide) hbody
  | json v =>
    have hv := BrasilAPIResp_unmarshal_oneLine v
    simp only [decode] at h
    rcases hu : BrasilAPIResp.unmarshal v with ⟨result, _ | e⟩
    · simp [hu] at h
    · simp [hu] at h
      exact h ▸ oneLine_append _ _ (by unfold oneLine; decide) (hv e (by rw [hu]))

theorem RequestCEPAPI_oneLine (httpGet : HttpGet Body) (url : String)
    (decoder : CEPDecoderFunc Body Unit) (err : GoError)
    (hnet : (httpGet url).textsOnOneLine)
    (hdec : ∀ body e, (match body with
        | .invalid e0 => oneLine e0
        | .json _ => True) → (decoder body ()).1.2 = some e → oneLine e)
    (h : (RequestCEPAPI httpGet url decoder ()).1.2 = some err) : oneLine err := by
  unfold RequestCEPAPI at h
  cases hg : httpGet url with
  | failure e =>
    rw [hg] at hnet h
    simp at h
    exact h ▸ oneLine_append _ _ (by unfold oneLine; decide) hnet
  | response resp =>
    rw [hg] at hnet h
    by_cases hs : resp.StatusCode = 200
    · simp [hs] at h
      exact hdec resp.Body err hnet.2 h
    · simp [hs] at h
      exact h ▸ oneLine_append _ _ (by unfold oneLine; decide) hnet.1

theorem ViaCEPRequest_errCh_oneLine (httpGet : HttpGet Body) (cep : String) (err : GoError)
    (hnet : ∀ url, (httpGet url).textsOnOneLine)
    (h : ViaCEPRequest httpGet cep = .errCh err) : oneLine err := by
  unfold ViaCEPRequest at h
  apply RequestCEPAPI_oneLine httpGet ("https://viacep.com.br/ws/" ++ cep ++ "/json/")
    ViaCEPRequest.decoder err (hnet _) ViaCEPRequest_decoder_oneLine
  rcases hr : (RequestCEPAPI httpGet ("https://viacep.com.br/ws/" ++ cep ++ "/json/")
    ViaCEPRequest.decoder ()).1 with ⟨resp, _ | e⟩
  · simp [hr] at h
  · simp [hr] at h
    rw [h]

theorem BrasilAPIRequest_errCh_oneLine (httpGet : HttpGet Body) (cep : String) (err : GoError)
    (hnet : ∀ url, (httpGet url).textsOnOneLine)
    (h : BrasilAPIRequest httpGet cep = .errCh err) : oneLine err := by
  unfold BrasilAPIRequest at h
  apply RequestCEPAPI_oneLine httpGet ("https://brasilapi.com.br/api/cep/v1/" ++ cep)
    BrasilAPIRequest.decoder err (hnet _) BrasilAPIRequest_decoder_oneLine
  rcases hr : (RequestCEPAPI httpGet ("https://brasilapi.com.br/api/cep/v1/" ++ cep)
    BrasilAPIRequest.decoder ()).1 with ⟨resp, _ | e⟩
  · simp [hr] at h
  · simp [hr] at h
    rw [h]

theorem selected_err_oneLine (httpGet : HttpGet Body) (cep : String) (sched : Schedule)
    (err : GoError) (hnet : ∀ url, (httpGet url).textsOnOneLine)
    (h : sched.selected (ViaCEPRequest httpGet cep) (BrasilAPIRequest httpGet cep)
      = .apiErrChannel err) : oneLine err := by
  unfold Schedule.selected at h
  cases hf : sched.first <;> simp [hf] at h
  · cases ha : ViaCEPRequest httpGet cep <;> simp [ha] at h
    exact ViaCEPRequest_errCh_oneLine httpGet cep err hnet (by rw [ha, h])
  · cases hb : BrasilAPIRequest httpGet cep <;> simp [hb] at h
    exact BrasilAPIRequest_errCh_oneLine httpGet cep err hnet (by rw [hb, h])

/-! ## Auxiliary facts: `main` with a postal-code argument -/

theorem main_with_cep (prog cep : String) (rest : List String) (httpGet : HttpGet Body)
    (sched : Schedule) :
    main (prog :: cep :: rest) httpGet sched =
      { stdout := (selectCase (sched.selected (ViaCEPRequest httpGet cep)
          (BrasilAPIRequest httpGet cep))).1
        exitCode := (selectCase (sched.selected (ViaCEPRequest httpGet cep)
          (BrasilAPIRequest httpGet cep))).2
        started := [.viaCEP, .brasilAPI] } := by
  simp [main]

theorem erro_data (err : String) :
    ("Erro: " ++ err).data = 'E' :: 'r' :: 'r' :: 'o' :: ':' :: ' ' :: err.data := by
  simp [String.data_append]

/-! ## The shared request routine: status handling (C3, C4) -/

/-- C3. For every response whose status code is not 200 and for every decoder,
`RequestCEPAPI` returns no result and the error "requisição falhou com
status: " followed by the status text of the response, and it does not call
the decoder: the state that only the decoder can change is returned as it
was. -/
theorem RequestCEPAPI_status_not_200 {β σ : Type} (httpGet : HttpGet β) (url : String)
    (resp : Response β) (decoder : CEPDecoderFunc β σ) (s : σ)
    (hget : httpGet url = .response resp) (hstatus : resp.StatusCode ≠ 200) :
    RequestCEPAPI httpGet url decoder s =
      ((none, some ("requisição falhou com status: " ++ resp.Status)), s) := by
  simp [RequestCEPAPI, hget, hstatus]

/-- C3, at a concrete input: a `404 Not Found` with a valid body and a decoder
that counts its calls; the counter stays at 0. -/
theorem RequestCEPAPI_status_not_200_witness :
    response404.StatusCode ≠ 200 ∧
    RequestCEPAPI (fun _ => GetResult.response response404)
        "https://viacep.com.br/ws/01001000/json/" countingDecoder 0 =
      ((none, some ("requisição falhou com status: " ++ response404.Status)), 0) :=
  ⟨by decide, RequestCEPAPI_status_not_200 _ _ response404 countingDecoder 0 rfl (by decide)⟩

/-- C4 as stated fails: a response `201 Created`, whose status code lies in
200..299, with a body the decoder accepts, makes `RequestCEPAPI` return the
status error and not what the decoder returns on the body. -/
theorem RequestCEPAPI_201_is_rejected :
    (200 ≤ response201.StatusCode ∧ response201.StatusCode ≤ 299) ∧
    ViaCEPRequest.decoder response201.Body () = ((some sampleViaCEPAddress, none), ()) ∧
    RequestCEPAPI (fun _ => GetResult.response response201)
        "https://viacep.com.br/ws/01001000/json/" ViaCEPRequest.decoder () =
      ((none, some "requisição falhou com status: 201 Created"), ()) ∧
    RequestCEPAPI (fun _ => GetResult.response response201)
        "https://viacep.com.br/ws/01001000/json/" ViaCEPRequest.decoder () ≠
      ViaCEPRequest.decoder response201.Body () := by
  decide

/-- C4, amended. `RequestCEPAPI` fails with a request error exactly when the
transport fails or the status code is not 200: a transport failure gives
"erro ao fazer requisição: " and its cause; a response with status code 200
gives exactly what the decoder returns on the body; a response with any
other status code, 201..299 included, gives the status error without a call
of the decoder. -/
theorem RequestCEPAPI_decodes_iff_200 {β σ : Type} (httpGet : HttpGet β) (url : String)
    (decoder : CEPDecoderFunc β σ) (s : σ) :
    (∀ err, httpGet url = .failure err →
      RequestCEPAPI httpGet url decoder s =
        ((none, some ("erro ao fazer requisição: " ++ err)), s)) ∧
    (∀ resp, httpGet url = .response resp → resp.StatusCode = 200 →
      RequestCEPAPI httpGet url decoder s = decoder resp.Body s) ∧
    (∀ resp, httpGet url = .response resp → resp.StatusCode ≠ 200 →
      RequestCEPAPI httpGet url decoder s =
        ((none, some ("requisição falhou com status: " ++ resp.Status)), s)) := by
  refine ⟨fun err h => ?_, fun resp h h200 => ?_, fun resp h hne => ?_⟩
  · simp [RequestCEPAPI, h]
  · simp [RequestCEPAPI, h, h200]
  · simp [RequestCEPAPI, h, hne]

/-- C4, amended, at concrete inputs: no connectivity, `200 OK` and
`201 Created`, with the decoder that counts its calls. -/
theorem RequestCEPAPI_decodes_iff_200_witness :
    RequestCEPAPI networkDown "https://viacep.com.br/ws/01001000/json/" countingDecoder 0 =
      ((none, some "erro ao fazer requisição: Get: dial tcp: lookup: no such host"), 0) ∧
    RequestCEPAPI (fun _ => GetResult.response response200)
        "https://viacep.com.br/ws/01001000/json/" countingDecoder 0 =
      ((some sampleViaCEPAddress, none), 1) ∧
    RequestCEPAPI (fun _ => GetResult.response response201)
        "https://viacep.com.br/ws/01001000/json/" countingDecoder 0 =
      ((none, some "requisição falhou com status: 201 Created"), 0) := by
  have h1 := (RequestCEPAPI_decodes_iff_200 networkDown
    "https://viacep.com.br/ws/01001000/json/" countingDecoder 0).1 _ rfl
  have h2 := (RequestCEPAPI_decodes_iff_200 (fun _ => GetResult.response response200)
    "https://viacep.com.br/ws/01001000/json/" countingDecoder 0).2.1 response200 rfl rfl
  have h3 := (RequestCEPAPI_decodes_iff_200 (fun _ => GetResult.response response201)
    "https://viacep.com.br/ws/01001000/json/" countingDecoder 0).2.2 response201 rfl
    (by decide)
  refine ⟨h1, ?_, h3⟩
  rw [h2]
  decide

/-! ## The race coordinator (C1, C5, C8) -/

/-- C1 as stated fails: on a network where provider A answers 500 and provider
B answers 200 with a valid body, with A ready first, then B, then the
deadline, provider A fails, provider B succeeds, and the program prints A's
error, not the report for B. -/
theorem failure_first_then_success_prints_error :
    ViaCEPRequest networkAFailsBSucceeds "01001000" =
      .errCh "requisição falhou com status: 500 Internal Server Error" ∧
    BrasilAPIRequest networkAFailsBSucceeds "01001000" = .out (some sampleBrasilAPIAddress) ∧
    Schedule.selected ⟨.viaCEP, [.brasilAPI, .deadline]⟩
        (ViaCEPRequest networkAFailsBSucceeds "01001000")
        (BrasilAPIRequest networkAFailsBSucceeds "01001000") =
      .apiErrChannel "requisição falhou com status: 500 Internal Server Error" ∧
    (main ["cep", "01001000"] networkAFailsBSucceeds
        ⟨.viaCEP, [.brasilAPI, .deadline]⟩).stdout =
      "Erro: requisição falhou com status: 500 Internal Server Error" ∧
    (main ["cep", "01001000"] networkAFailsBSucceeds
        ⟨.viaCEP, [.brasilAPI, .deadline]⟩).stdout ≠
      (selectCase (.brasilAPIChannel (some sampleBrasilAPIAddress))).1 := by
  decide

/-- C1, amended. For every postal code, if provider A's failure is the first
event ready, the outcome surfaced is A's error: `select` receives it from the
error channel and the program prints "Erro: " followed by its text, whatever
becomes ready afterwards and whatever provider B produces. -/
theorem failure_first_is_the_outcome (prog cep : String) (rest : List String)
    (httpGet : HttpGet Body) (later : List Source) (err : GoError)
    (hfail : ViaCEPRequest httpGet cep = .errCh err) :
    Schedule.selected ⟨.viaCEP, later⟩ (ViaCEPRequest httpGet cep)
        (BrasilAPIRequest httpGet cep) = .apiErrChannel err ∧
    (main (prog :: cep :: rest) httpGet ⟨.viaCEP, later⟩).stdout = "Erro: " ++ err := by
  simp [main_with_cep, Schedule.selected, hfail, selectCase]

/-- C1, amended, at a concrete input: A answers 500, B succeeds afterwards. -/
theorem failure_first_is_the_outcome_witness :
    ViaCEPRequest networkAFailsBSucceeds "01001000" =
      .errCh "requisição falhou com status: 500 Internal Server Error" ∧
    (main ["cep", "01001000"] networkAFailsBSucceeds
        ⟨.viaCEP, [.brasilAPI, .deadline]⟩).stdout =
      "Erro: " ++ "requisição falhou com status: 500 Internal Server Error" :=
  ⟨by decide,
    (failure_first_is_the_outcome "cep" "01001000" [] networkAFailsBSucceeds
      [.brasilAPI, .deadline] _ (by decide)).2⟩

/-- C5. For every postal code, if provider A's success is the first event
ready, `select` receives exactly the address A sent, that address is not nil
and carries the source service "viacep.com.br", and the program prints the
report for it; symmetrically for provider B with "brasilapi.com.br". -/
theorem success_first_is_the_outcome (prog cep : String) (rest : List String)
    (httpGet : HttpGet Body) (later : List Source) :
    (∀ msg, ViaCEPRequest httpGet cep = .out msg →
      Schedule.selected ⟨.viaCEP, later⟩ (ViaCEPRequest httpGet cep)
          (BrasilAPIRequest httpGet cep) = .viaCEPChannel msg ∧
      ∃ a report, msg = some a ∧ a.APIService = "viacep.com.br" ∧
        PrintCEPAPIResp (some a) = some report ∧
        (main (prog :: cep :: rest) httpGet ⟨.viaCEP, later⟩).stdout =
          "*** Via CEP ***\n" ++ report) ∧
    (∀ msg, BrasilAPIRequest httpGet cep = .out msg →
      Schedule.selected ⟨.brasilAPI, later⟩ (ViaCEPRequest httpGet cep)
          (BrasilAPIRequest httpGet cep) = .brasilAPIChannel msg ∧
      ∃ a report, msg = some a ∧ a.APIService = "brasilapi.com.br" ∧
        PrintCEPAPIResp (some a) = some report ∧
        (main (prog :: cep :: rest) httpGet ⟨.brasilAPI, later⟩).stdout =
          "*** Brasil API ***\n" ++ report) := by
  constructor
  · intro msg h
    obtain ⟨a, hmsg, ha⟩ := ViaCEPRequest_out httpGet cep msg h
    subst hmsg
    refine ⟨by simp [Schedule.selected, h], a, _, rfl, ha, rfl, ?_⟩
    simp [main_with_cep, Schedule.selected, h, selectCase, PrintCEPAPIResp]
  · intro msg h
    obtain ⟨a, hmsg, ha⟩ := BrasilAPIRequest_out httpGet cep msg h
    subst hmsg
    refine ⟨by simp [Schedule.selected, h], a, _, rfl, ha, rfl, ?_⟩
    simp [main_with_cep, Schedule.selected, h, selectCase, PrintCEPAPIResp]

/-- C5, at a concrete input: both providers succeed; whichever is ready first
is the one reported. -/
theorem success_first_is_the_outcome_witness :
    (ViaCEPRequest networkBothSucceed "01001000" = .out (some sampleViaCEPAddress) ∧
      Schedule.selected ⟨.viaCEP, [.brasilAPI, .deadline]⟩
          (ViaCEPRequest networkBothSucceed "01001000")
          (BrasilAPIRequest networkBothSucceed "01001000") =
        .viaCEPChannel (some sampleViaCEPAddress)) ∧
    (BrasilAPIRequest networkBothSucceed "01001000" = .out (some sampleBrasilAPIAddress) ∧
      Schedule.selected ⟨.brasilAPI, [.viaCEP, .deadline]⟩
          (ViaCEPRequest networkBothSucceed "01001000")
          (BrasilAPIRequest networkBothSucceed "01001000") =
        .brasilAPIChannel (some sampleBrasilAPIAddress)) :=
  ⟨⟨by decide,
    ((success_first_is_the_outcome "cep" "01001000" [] networkBothSucceed
      [.brasilAPI, .deadline]).1 _ (by decide)).1⟩,
   ⟨by decide,
    ((success_first_is_the_outcome "cep" "01001000" [] networkBothSucceed
      [.viaCEP, .deadline]).2 _ (by decide)).1⟩⟩

/-- C8. For every postal code and every network, if the deadline is the first
event ready, `select` takes the timer case whatever the providers produce and
whatever becomes ready later, and the whole standard output is the
7-character text "timeout", with no line feed. -/
theorem deadline_first_is_timeout (prog cep : String) (rest : List String)
    (httpGet : HttpGet Body) (later : List Source) :
    Schedule.selected ⟨.deadline, later⟩ (ViaCEPRequest httpGet cep)
        (BrasilAPIRequest httpGet cep) = .timeAfter ∧
    (main (prog :: cep :: rest) httpGet ⟨.deadline, later⟩).stdout = "timeout" ∧
    (main (prog :: cep :: rest) httpGet ⟨.deadline, later⟩).stdout.length = 7 ∧
    lineFeeds (main (prog :: cep :: rest) httpGet ⟨.deadline, later⟩).stdout = 0 := by
  have h : (main (prog :: cep :: rest) httpGet ⟨.deadline, later⟩).stdout = "timeout" := by
    simp [main_with_cep, Schedule.selected, selectCase]
  refine ⟨rfl, h, ?_, ?_⟩
  · rw [h]; decide
  · rw [h]; decide

/-! ## Standard output (C6, C7, C9) -/

theorem report_line_no_feed (label v : String) (hl : '\n' ∉ label.data)
    (hv : '\n' ∉ v.data) : '\n' ∉ (label ++ v ++ " ").data := by
  simp [String.data_append, hl, hv]

theorem report_six_lines (c : CEPAPIResp)
    (hCEP : '\n' ∉ c.CEP.data) (hState : '\n' ∉ c.State.data)
    (hCity : '\n' ∉ c.City.data) (hNeighborhood : '\n' ∉ c.Neighborhood.data)
    (hStreet : '\n' ∉ c.Street.data) (hAPIService : '\n' ∉ c.APIService.data) :
    lines ("CEP ..........: " ++ c.CEP ++ " \n" ++
        "State ........: " ++ c.State ++ " \n" ++
        "City .........: " ++ c.City ++ " \n" ++
        "Neighborhood .: " ++ c.Neighborhood ++ " \n" ++
        "Street .......: " ++ c.Street ++ " \n" ++
        "API Service ..: " ++ c.APIService ++ " \n") =
      ["CEP ..........: " ++ c.CEP ++ " ",
       "State ........: " ++ c.State ++ " ",
       "City .........: " ++ c.City ++ " ",
       "Neighborhood .: " ++ c.Neighborhood ++ " ",
       "Street .......: " ++ c.Street ++ " ",
       "API Service ..: " ++ c.APIService ++ " "] := by
  have hEq :
      "CEP ..........: " ++ c.CEP ++ " \n" ++
      "State ........: " ++ c.State ++ " \n" ++
      "City .........: " ++ c.City ++ " \n" ++
      "Neighborhood .: " ++ c.Neighborhood ++ " \n" ++
      "Street .......: " ++ c.Street ++ " \n" ++
      "API Service ..: " ++ c.APIService ++ " \n" =
      ("CEP ..........: " ++ c.CEP ++ " ") ++ "\n" ++
      (("State ........: " ++ c.State ++ " ") ++ "\n" ++
      (("City .........: " ++ c.City ++ " ") ++ "\n" ++
      (("Neighborhood .: " ++ c.Neighborhood ++ " ") ++ "\n" ++
      (("Street .......: " ++ c.Street ++ " ") ++ "\n" ++
      (("API Service ..: " ++ c.APIService ++ " ") ++ "\n" ++ ""))))) := by
    apply String.ext
    simp [String.data_append]
  rw [hEq,
    lines_line _ _ (report_line_no_feed _ _ (by decide) hCEP),
    lines_line _ _ (report_line_no_feed _ _ (by decide) hState),
    lines_line _ _ (report_line_no_feed _ _ (by decide) hCity),
    lines_line _ _ (report_line_no_feed _ _ (by decide) hNeighborhood),
    lines_line _ _ (report_line_no_feed _ _ (by decide) hStreet),
    lines_line _ _ (report_line_no_feed _ _ (by decide) hAPIService)]
  rfl

theorem success_stdout (prog cep : String) (rest : List String) (httpGet : HttpGet Body)
    (sched : Schedule) (msg : Option CEPAPIResp) :
    (sched.selected (ViaCEPRequest httpGet cep) (BrasilAPIRequest httpGet cep)
        = .viaCEPChannel msg →
      ∃ a, msg = some a ∧
        (main (prog :: cep :: rest) httpGet sched).stdout =
          "*** Via CEP ***" ++ "\n" ++
            ("CEP ..........: " ++ a.CEP ++ " \n" ++
             "State ........: " ++ a.State ++ " \n" ++
             "City .........: " ++ a.City ++ " \n" ++
             "Neighborhood .: " ++ a.Neighborhood ++ " \n" ++
             "Street .......: " ++ a.Street ++ " \n" ++
             "API Service ..: " ++ a.APIService ++ " \n")) ∧
    (sched.selected (ViaCEPRequest httpGet cep) (BrasilAPIRequest httpGet cep)
        = .brasilAPIChannel msg →
      ∃ a, msg = some a ∧
        (main (prog :: cep :: rest) httpGet sched).stdout =
          "*** Brasil API ***" ++ "\n" ++
            ("CEP ..........: " ++ a.CEP ++ " \n" ++
             "State ........: " ++ a.State ++ " \n" ++
             "City .........: " ++ a.City ++ " \n" ++
             "Neighborhood .: " ++ a.Neighborhood ++ " \n" ++
             "Street .......: " ++ a.Street ++ " \n" ++
             "API Service ..: " ++ a.APIService ++ " \n")) := by
  constructor
  · intro h
    obtain ⟨_, hout⟩ := (selected_msg_some httpGet cep sched).1 msg h
    obtain ⟨a, hmsg, _⟩ := ViaCEPRequest_out httpGet cep msg hout
    subst hmsg
    refine ⟨a, rfl, ?_⟩
    simp only [main_with_cep, h, selectCase, PrintCEPAPIResp]
    rfl
  · intro h
    obtain ⟨_, hout⟩ := (selected_msg_some httpGet cep sched).2 msg h
    obtain ⟨a, hmsg, _⟩ := BrasilAPIRequest_out httpGet cep msg hout
    subst hmsg
    refine ⟨a, rfl, ?_⟩
    simp only [main_with_cep, h, selectCase, PrintCEPAPIResp]
    rfl

/-- C6 as stated fails: when both providers succeed and provider A is ready
first, standard output is not the report of `PrintCEPAPIResp` alone: it has
seven lines, the first of which is the banner "*** Via CEP ***". And when
provider B, ready first, answers with a street that holds a line feed, the
output has eight lines. -/
theorem success_output_is_not_the_report_alone :
    Schedule.selected ⟨.viaCEP, [.brasilAPI, .deadline]⟩
        (ViaCEPRequest networkBothSucceed "01001000")
        (BrasilAPIRequest networkBothSucceed "01001000") =
      .viaCEPChannel (some sampleViaCEPAddress) ∧
    some (main ["cep", "01001000"] networkBothSucceed
        ⟨.viaCEP, [.brasilAPI, .deadline]⟩).stdout ≠
      PrintCEPAPIResp (some sampleViaCEPAddress) ∧
    lines (main ["cep", "01001000"] networkBothSucceed
        ⟨.viaCEP, [.brasilAPI, .deadline]⟩).stdout =
      ["*** Via CEP ***", "CEP ..........: 01001000 ", "State ........:  ",
       "City .........: São Paulo ", "Neighborhood .: Sé ",
       "Street .......: Praça da Sé ", "API Service ..: viacep.com.br "] ∧
    (lines (main ["cep", "01001000"] networkBothSucceed
        ⟨.viaCEP, [.brasilAPI, .deadline]⟩).stdout).length = 7 ∧
    Schedule.selected ⟨.brasilAPI, [.viaCEP, .deadline]⟩
        (ViaCEPRequest networkStreetWithLineFeed "01001000")
        (BrasilAPIRequest networkStreetWithLineFeed "01001000") =
      .brasilAPIChannel (some addressWithLineFeed) ∧
    lines (main ["cep", "01001000"] networkStreetWithLineFeed
        ⟨.brasilAPI, [.viaCEP, .deadline]⟩).stdout =
      ["*** Brasil API ***", "CEP ..........: 01001000 ", "State ........: SP ",
       "City .........: São Paulo ", "Neighborhood .: Sé ",
       "Street .......: Praça da Sé", "lado ímpar ",
       "API Service ..: brasilapi.com.br "] := by
  decide

/-- C6, amended. On a success outcome the address received is not nil and the
whole standard output is one banner line that names the provider selected
("*** Via CEP ***" for provider A, "*** Brasil API ***" for provider B)
followed by the report of that address, the six segments label, value,
space, line feed in the order postal code, state, city, neighborhood,
street, source service, and nothing else; when no field of the address holds
a line feed these are exactly seven lines, the banner and the six lines of
the report. -/
theorem success_output_is_banner_then_report (prog cep : String) (rest : List String)
    (httpGet : HttpGet Body) (sched : Schedule) (msg : Option CEPAPIResp) :
    (sched.selected (ViaCEPRequest httpGet cep) (BrasilAPIRequest httpGet cep)
        = .viaCEPChannel msg →
      ∃ a, msg = some a ∧
        (main (prog :: cep :: rest) httpGet sched).stdout =
          "*** Via CEP ***" ++ "\n" ++
            ("CEP ..........: " ++ a.CEP ++ " \n" ++
             "State ........: " ++ a.State ++ " \n" ++
             "City .........: " ++ a.City ++ " \n" ++
             "Neighborhood .: " ++ a.Neighborhood ++ " \n" ++
             "Street .......: " ++ a.Street ++ " \n" ++
             "API Service ..: " ++ a.APIService ++ " \n") ∧
        (oneLine a.CEP ∧ oneLine a.State ∧ oneLine a.City ∧ oneLine a.Neighborhood ∧
            oneLine a.Street ∧ oneLine a.APIService →
          lines (main (prog :: cep :: rest) httpGet sched).stdout =
            ["*** Via CEP ***",
             "CEP ..........: " ++ a.CEP ++ " ",
             "State ........: " ++ a.State ++ " ",
             "City .........: " ++ a.City ++ " ",
             "Neighborhood .: " ++ a.Neighborhood ++ " ",
             "Street .......: " ++ a.Street ++ " ",
             "API Service ..: " ++ a.APIService ++ " "])) ∧
    (sched.selected (ViaCEPRequest httpGet cep) (BrasilAPIRequest httpGet cep)
        = .brasilAPIChannel msg →
      ∃ a, msg = some a ∧
        (main (prog :: cep :: rest) httpGet sched).stdout =
          "*** Brasil API ***" ++ "\n" ++
            ("CEP ..........: " ++ a.CEP ++ " \n" ++
             "State ........: " ++ a.State ++ " \n" ++
             "City .........: " ++ a.City ++ " \n" ++
             "Neighborhood .: " ++ a.Neighborhood ++ " \n" ++
             "Street .......: " ++ a.Street ++ " \n" ++
             "API Service ..: " ++ a.APIService ++ " \n") ∧
        (oneLine a.CEP ∧ oneLine a.State ∧ oneLine a.City ∧ oneLine a.Neighborhood ∧
            oneLine a.Street ∧ oneLine a.APIService →
          lines (main (prog :: cep :: rest) httpGet sched).stdout =
            ["*** Brasil API ***",
             "CEP ..........: " ++ a.CEP ++ " ",
             "State ........: " ++ a.State ++ " ",
             "City .........: " ++ a.City ++ " ",
             "Neighborhood .: " ++ a.Neighborhood ++ " ",
             "Street .......: " ++ a.Street ++ " ",
             "API Service ..: " ++ a.APIService ++ " "])) := by
  constructor
  · intro h
    obtain ⟨a, hmsg, hs⟩ := (success_stdout prog cep rest httpGet sched msg).1 h
    refine ⟨a, hmsg, hs, fun hf => ?_⟩
    obtain ⟨h1, h2, h3, h4, h5, h6⟩ := hf
    rw [hs, lines_line _ _ (by decide), report_six_lines a h1 h2 h3 h4 h5 h6]
  · intro h
    obtain ⟨a, hmsg, hs⟩ := (success_stdout prog cep rest httpGet sched msg).2 h
    refine ⟨a, hmsg, hs, fun hf => ?_⟩
    obtain ⟨h1, h2, h3, h4, h5, h6⟩ := hf
    rw [hs, lines_line _ _ (by decide), report_six_lines a h1 h2 h3 h4 h5 h6]

/-- C6, amended, at concrete inputs: both providers succeed, A first and B
first; the seven lines of each output. -/
theorem success_output_is_banner_then_report_witness :
    lines (main ["cep", "01001000"] networkBothSucceed ⟨.viaCEP, [.brasilAPI]⟩).stdout =
      ["*** Via CEP ***", "CEP ..........: 01001000 ", "State ........:  ",
       "City .........: São Paulo ", "Neighborhood .: Sé ",
       "Street .......: Praça da Sé ", "API Service ..: viacep.com.br "] ∧
    lines (main ["cep", "01001000"] networkBothSucceed ⟨.brasilAPI, [.viaCEP]⟩).stdout =
      ["*** Brasil API ***", "CEP ..........: 01001000 ", "State ........: SP ",
       "City .........: São Paulo ", "Neighborhood .: Sé ",
       "Street .......: Praça da Sé ", "API Service ..: brasilapi.com.br "] := by
  obtain ⟨a, ha, _, hl⟩ := (success_output_is_banner_then_report "cep" "01001000" []
    networkBothSucceed ⟨.viaCEP, [.brasilAPI]⟩ (some sampleViaCEPAddress)).1 (by decide)
  obtain ⟨b, hb, _, hm⟩ := (success_output_is_banner_then_report "cep" "01001000" []
    networkBothSucceed ⟨.brasilAPI, [.viaCEP]⟩ (some sampleBrasilAPIAddress)).2 (by decide)
  cases ha
  cases hb
  exact ⟨hl (by unfold oneLine; decide), hm (by unfold oneLine; decide)⟩

/-- C7 as stated fails: for an address whose street holds a line feed the
report of `PrintCEPAPIResp` has seven lines, and the street is spread over
two of them. -/
theorem report_of_field_with_line_feed_has_seven_lines :
    (PrintCEPAPIResp (some addressWithLineFeed)).map lines =
      some ["CEP ..........: 01001000 ", "State ........: SP ",
            "City .........: São Paulo ", "Neighborhood .: Sé ",
            "Street .......: Praça da Sé", "lado ímpar ",
            "API Service ..: brasilapi.com.br "] ∧
    (PrintCEPAPIResp (some addressWithLineFeed)).map (fun r => (lines r).length) ≠ some 6 := by
  decide

/-- C7, amended. For every address whose six fields hold no line feed (empty
fields included), `PrintCEPAPIResp` writes exactly six lines, one field per
line, in the order postal code, state, city, neighborhood, street, source
service; each line is the label of the field, the value of the field and a
space. -/
theorem PrintCEPAPIResp_six_lines (c : CEPAPIResp)
    (hCEP : '\n' ∉ c.CEP.data) (hState : '\n' ∉ c.State.data)
    (hCity : '\n' ∉ c.City.data) (hNeighborhood : '\n' ∉ c.Neighborhood.data)
    (hStreet : '\n' ∉ c.Street.data) (hAPIService : '\n' ∉ c.APIService.data) :
    ∃ report, PrintCEPAPIResp (some c) = some report ∧
      lines report =
        ["CEP ..........: " ++ c.CEP ++ " ",
         "State ........: " ++ c.State ++ " ",
         "City .........: " ++ c.City ++ " ",
         "Neighborhood .: " ++ c.Neighborhood ++ " ",
         "Street .......: " ++ c.Street ++ " ",
         "API Service ..: " ++ c.APIService ++ " "] :=
  ⟨_, rfl, report_six_lines c hCEP hState hCity hNeighborhood hStreet hAPIService⟩

/-- C7, amended, at a concrete input: the address decoded from the sample
provider-A body, whose state is empty. -/
theorem PrintCEPAPIResp_six_lines_witness :
    ∃ report, PrintCEPAPIResp (some sampleViaCEPAddress) = some report ∧
      lines report =
        ["CEP ..........: " ++ sampleViaCEPAddress.CEP ++ " ",
         "State ........: " ++ sampleViaCEPAddress.State ++ " ",
         "City .........: " ++ sampleViaCEPAddress.City ++ " ",
         "Neighborhood .: " ++ sampleViaCEPAddress.Neighborhood ++ " ",
         "Street .......: " ++ sampleViaCEPAddress.Street ++ " ",
         "API Service ..: " ++ sampleViaCEPAddress.APIService ++ " "] :=
  PrintCEPAPIResp_six_lines sampleViaCEPAddress (by decide) (by decide) (by decide)
    (by decide) (by decide) (by decide)

theorem networkAFailsBSucceeds_oneLine (url : String) :
    (networkAFailsBSucceeds url).textsOnOneLine := by
  unfold networkAFailsBSucceeds
  by_cases h : url = "https://viacep.com.br/ws/01001000/json/"
  · rw [if_pos h]
    exact ⟨by unfold oneLine; decide, by unfold oneLine; decide⟩
  · rw [if_neg h]
    exact ⟨by unfold oneLine; decide, trivial⟩

/-- C9 as stated fails: on a network where the transport fails with a cause
whose text spans two lines, provider A sends that error, it is the event
selected, and standard output is "Erro: " and the text, on two lines. -/
theorem error_output_with_line_feed_has_two_lines :
    ViaCEPRequest networkJoinedFailure "01001000" =
      .errCh ("erro ao fazer requisição: dial tcp: connection refused\n" ++
        "dial tcp: network is unreachable") ∧
    Schedule.selected ⟨.viaCEP, [.brasilAPI, .deadline]⟩
        (ViaCEPRequest networkJoinedFailure "01001000")
        (BrasilAPIRequest networkJoinedFailure "01001000") =
      .apiErrChannel ("erro ao fazer requisição: dial tcp: connection refused\n" ++
        "dial tcp: network is unreachable") ∧
    lines (main ["cep", "01001000"] networkJoinedFailure
        ⟨.viaCEP, [.brasilAPI, .deadline]⟩).stdout =
      ["Erro: erro ao fazer requisição: dial tcp: connection refused",
       "dial tcp: network is unreachable"] ∧
    (lines (main ["cep", "01001000"] networkJoinedFailure
        ⟨.viaCEP, [.brasilAPI, .deadline]⟩).stdout).length ≠ 1 := by
  decide

/-- C9, amended. For every error a provider sends, when that failure is the
event selected the whole standard output is "Erro: " followed by the text of
the error and nothing else (no line feed is added); it differs from the
timeout output "timeout"; it is a single line exactly when the text of the
error holds no line feed, which is the case on every network whose library
texts (transport cause, status line, body read error) are each on one
line. -/
theorem error_output_is_erro_and_text (prog cep : String) (rest : List String)
    (httpGet : HttpGet Body) (sched : Schedule) (err : GoError)
    (hsel : sched.selected (ViaCEPRequest httpGet cep) (BrasilAPIRequest httpGet cep)
      = .apiErrChannel err) :
    (main (prog :: cep :: rest) httpGet sched).stdout = "Erro: " ++ err ∧
    (main (prog :: cep :: rest) httpGet sched).stdout ≠ "timeout" ∧
    (main (prog :: cep :: rest) httpGet sched).stdout ≠
      (main (prog :: cep :: rest) httpGet ⟨.deadline, sched.later⟩).stdout ∧
    lineFeeds (main (prog :: cep :: rest) httpGet sched).stdout = lineFeeds err ∧
    (lines (main (prog :: cep :: rest) httpGet sched).stdout = ["Erro: " ++ err] ↔
      oneLine err) ∧
    ((∀ url, (httpGet url).textsOnOneLine) → oneLine err) := by
  have hs : (main (prog :: cep :: rest) httpGet sched).stdout = "Erro: " ++ err := by
    simp [main_with_cep, hsel, selectCase]
  have hd : (main (prog :: cep :: rest) httpGet ⟨.deadline, sched.later⟩).stdout
      = "timeout" := by
    simp [main_with_cep, Schedule.selected, selectCase]
  have hne : "Erro: " ++ err ≠ "timeout" := by
    intro h
    have h2 := congrArg String.data h
    rw [erro_data] at h2
    simp at h2
  refine ⟨hs, by rw [hs]; exact hne, by rw [hs, hd]; exact hne, ?_, ?_,
    fun hnet => selected_err_oneLine httpGet cep sched err hnet hsel⟩
  · rw [hs, lineFeeds_append]
    have : lineFeeds "Erro: " = 0 := by decide
    omega
  · rw [hs]
    constructor
    · intro hl
      have hmem : ("Erro: " ++ err).data ∈ linesOf ("Erro: " ++ err).data := by
        have h1 : ("Erro: " ++ err) ∈ lines ("Erro: " ++ err) := by rw [hl]; simp
        unfold lines at h1
        obtain ⟨x, hx, hxe⟩ := List.mem_map.mp h1
        have : x = ("Erro: " ++ err).data := by rw [← hxe]
        exact this ▸ hx
      have hno := linesOf_no_feed _ _ hmem
      rw [erro_data] at hno
      unfold oneLine
      intro hin
      exact hno (by simp [hin])
    · intro hfeed
      unfold oneLine at hfeed
      unfold lines
      rw [linesOf_unterminated _ (by rw [erro_data]; simp) (by rw [erro_data]; simp [hfeed])]
      rfl

/-- C9, amended, at a concrete input: provider A answers 500 and is ready
first. -/
theorem error_output_is_erro_and_text_witness :
    Schedule.selected ⟨.viaCEP, [.brasilAPI]⟩
        (ViaCEPRequest networkAFailsBSucceeds "01001000")
        (BrasilAPIRequest networkAFailsBSucceeds "01001000") =
      .apiErrChannel "requisição falhou com status: 500 Internal Server Error" ∧
    (main ["cep", "01001000"] networkAFailsBSucceeds ⟨.viaCEP, [.brasilAPI]⟩).stdout =
      "Erro: " ++ "requisição falhou com status: 500 Internal Server Error" ∧
    (main ["cep", "01001000"] networkAFailsBSucceeds ⟨.viaCEP, [.brasilAPI]⟩).stdout ≠
      "timeout" ∧
    lines (main ["cep", "01001000"] networkAFailsBSucceeds ⟨.viaCEP, [.brasilAPI]⟩).stdout =
      ["Erro: " ++ "requisição falhou com status: 500 Internal Server Error"] :=
  have h := error_output_is_erro_and_text "cep" "01001000" [] networkAFailsBSucceeds
    ⟨.viaCEP, [.brasilAPI]⟩ "requisição falhou com status: 500 Internal Server Error"
    (by decide)
  ⟨by decide, h.1, h.2.1, h.2.2.2.2.1.mpr (h.2.2.2.2.2 networkAFailsBSucceeds_oneLine)⟩

/-! ## Exit status (C10) -/

theorem selectCase_exit_zero (httpGet : HttpGet Body) (cep : String) (sched : Schedule) :
    (selectCase (sched.selected (ViaCEPRequest httpGet cep)
      (BrasilAPIRequest httpGet cep))).2 = 0 := by
  cases hev : sched.selected (ViaCEPRequest httpGet cep) (BrasilAPIRequest httpGet cep) with
  | viaCEPChannel msg =>
    obtain ⟨_, hout⟩ := (selected_msg_some httpGet cep sched).1 msg hev
    obtain ⟨a, hmsg, _⟩ := ViaCEPRequest_out httpGet cep msg hout
    subst hmsg
    rfl
  | brasilAPIChannel msg =>
    obtain ⟨_, hout⟩ := (selected_msg_some httpGet cep sched).2 msg hev
    obtain ⟨a, hmsg, _⟩ := BrasilAPIRequest_out httpGet cep msg hout
    subst hmsg
    rfl
  | apiErrChannel msg => rfl
  | timeAfter => rfl

/-- C10. With fewer than 2 entries in `os.Args` the program prints the usage
message, starts no provider goroutine and exits with status 1; with 2
entries or more it starts both providers and exits with status 0, for every
network and every order of readiness, that is whether the outcome is a
success, a provider failure or a timeout. -/
theorem main_exit_status (osArgs : List String) (httpGet : HttpGet Body) (sched : Schedule) :
    (osArgs.length < 2 →
      main osArgs httpGet sched =
        { stdout := "Use: go run main.go <CEP>\n", exitCode := 1, started := [] }) ∧
    (2 ≤ osArgs.length →
      (main osArgs httpGet sched).exitCode = 0 ∧
      (main osArgs httpGet sched).started = [.viaCEP, .brasilAPI]) := by
  constructor
  · intro h
    simp [main, h]
  · intro h
    have hn : ¬ osArgs.length < 2 := by omega
    have hm : main osArgs httpGet sched =
        { stdout := (selectCase (sched.selected (ViaCEPRequest httpGet (osArgs.getD 1 ""))
            (BrasilAPIRequest httpGet (osArgs.getD 1 "")))).1
          exitCode := (selectCase (sched.selected (ViaCEPRequest httpGet (osArgs.getD 1 ""))
            (BrasilAPIRequest httpGet (osArgs.getD 1 "")))).2
          started := [.viaCEP, .brasilAPI] } := by
      simp [main, hn]
    rw [hm]
    exact ⟨selectCase_exit_zero httpGet _ sched, rfl⟩

/-- C10, at concrete inputs: no argument; then one argument with a success,
a provider failure and a timeout. -/
theorem main_exit_status_witness :
    main ["cep"] networkBothSucceed ⟨.viaCEP, []⟩ =
      { stdout := "Use: go run main.go <CEP>\n", exitCode := 1, started := [] } ∧
    (main ["cep", "01001000"] networkBothSucceed ⟨.brasilAPI, [.viaCEP]⟩).exitCode = 0 ∧
    (main ["cep", "01001000"] networkDown ⟨.viaCEP, [.brasilAPI]⟩).exitCode = 0 ∧
    (main ["cep", "01001000"] networkDown ⟨.deadline, []⟩).exitCode = 0 :=
  ⟨(main_exit_status ["cep"] networkBothSucceed ⟨.viaCEP, []⟩).1 (by decide),
   ((main_exit_status ["cep", "01001000"] networkBothSucceed ⟨.brasilAPI, [.viaCEP]⟩).2
      (by decide)).1,
   ((main_exit_status ["cep", "01001000"] networkDown ⟨.viaCEP, [.brasilAPI]⟩).2
      (by decide)).1,
   ((main_exit_status ["cep", "01001000"] networkDown ⟨.deadline, []⟩).2 (by decide)).1⟩

/-! ## Provider A's decoder (C2) -/

/-- C2 as stated fails: the body of the round-trip property, which has "uf"
and no "estado", is decoded to an address whose state is empty, not "SP":
the state is taken from "estado". -/
theorem sample_body_state_is_not_uf :
    ViaCEPRequest.decoder (.json sampleViaCEPBody) () =
      ((some { CEP := "01001000", State := "", City := "São Paulo", Neighborhood := "Sé",
               Street := "Praça da Sé", APIService := "viacep.com.br" }, none), ()) ∧
    ViaCEPRequest.decoder (.json sampleViaCEPBody) () ≠
      ((some { CEP := "01001000", State := "SP", City := "São Paulo", Neighborhood := "Sé",
               Street := "Praça da Sé", APIService := "viacep.com.br" }, none), ()) ∧
    memberValue sampleViaCEPMembers "uf" = "SP" := by
  decide

/-- C2, amended. For every provider-A body that is a JSON object with string
values whose keys differ from one another up to case, the decoder yields an
address with postal code "cep", street "logradouro", neighborhood "bairro",
city "localidade", state "estado" (not "uf") and source service
"viacep.com.br", a member that is absent giving the empty string; and the
value taken for a name is the value of the member with exactly that key when
the body has one. -/
theorem ViaCEPRequest_decoder_string_object (members : List (String × String))
    (hkeys : (members.map (fun m => foldName m.1)).Nodup) :
    ViaCEPRequest.decoder (.json (stringObject members)) () =
      ((some { CEP := memberValue members "cep"
               State := memberValue members "estado"
               City := memberValue members "localidade"
               Neighborhood := memberValue members "bairro"
               Street := memberValue members "logradouro"
               APIService := "viacep.com.br" }, none), ()) ∧
    (∀ name v, (name, v) ∈ members → memberValue members name = v) := by
  obtain ⟨herr, hget⟩ := ViaCEPResp.foldl_storeMember members ViaCEPResp.zero hkeys
  refine ⟨?_, fun name v h => memberValue_of_mem members hkeys name v h⟩
  have hst : ViaCEPResp.unmarshal (stringObject members) =
      (((members.map fun m => (m.1, JVal.str m.2)).foldl ViaCEPResp.storeMember
        (ViaCEPResp.zero, none)).1, none) := Prod.ext rfl herr
  rw [ViaCEPRequest.decoder_of_unmarshal _ _ hst]
  have hCEP := hget .CEP
  have hEstado := hget .Estado
  have hLocalidade := hget .Localidade
  have hBairro := hget .Bairro
  have hLogradouro := hget .Logradouro
  simp only [ViaCEPResp.get] at hCEP hEstado hLocalidade hBairro hLogradouro
  rw [hCEP, hEstado, hLocalidade, hBairro, hLogradouro]
  rfl

/-- C2, amended, at a concrete input: the body of the round-trip property. -/
theorem ViaCEPRequest_decoder_string_object_witness :
    (sampleViaCEPMembers.map (fun m => foldName m.1)).Nodup ∧
    ViaCEPRequest.decoder (.json (stringObject sampleViaCEPMembers)) () =
      ((some { CEP := memberValue sampleViaCEPMembers "cep"
               State := memberValue sampleViaCEPMembers "estado"
               City := memberValue sampleViaCEPMembers "localidade"
               Neighborhood := memberValue sampleViaCEPMembers "bairro"
               Street := memberValue sampleViaCEPMembers "logradouro"
               APIService := "viacep.com.br" }, none), ()) :=
  ⟨by decide, (ViaCEPRequest_decoder_string_object sampleViaCEPMembers (by decide)).1⟩

end CEPRace
